import Mathlib

/-!
Shallow embedding of the transaction-ID admission and IP-access-control core
of `githubstore/backend/server.js`, together with theorems settling the
specification claims about it.

Strings are modelled as Lean strings (lists of Unicode code points); the
in-memory JavaScript `Set` objects are modelled as `Finset String`; the
mutable module-level state (`usedTransactionIds`, `ipManager`) is passed
explicitly.  HTTP handlers become pure functions from a request model and
the current state to a response value and the successor state.
-/

namespace GithubStore

/-- A JavaScript value arriving in a request-body field that the server
inspects with `!x` (falsiness) and `typeof x !== "string"`.  `str s` is a
string value, `nonStringTruthy` any truthy non-string value (number,
object, ...), `absent` a falsy non-string value (`undefined`, `null`, ...). -/
inductive JsInput where
  | str (s : String)
  | nonStringTruthy
  | absent
deriving DecidableEq, Repr

/-- JavaScript falsiness of a `JsInput` (`!x` in the source): the empty
string and absent values are falsy, every other case here is truthy. -/
def JsInput.falsy : JsInput → Bool
  | .str s => s = ""
  | .nonStringTruthy => false
  | .absent => true

/-- The WhiteSpace/LineTerminator character set that `String.prototype.trim`
removes (code points: TAB 0x09, LF 0x0A, VT 0x0B, FF 0x0C, CR 0x0D,
SP 0x20, NBSP 0xA0, OGHAM 0x1680, the 0x2000-0x200A space range,
LS 0x2028, PS 0x2029, NNBSP 0x202F, MMSP 0x205F, IDSP 0x3000,
ZWNBSP 0xFEFF). -/
def jsWhitespace (c : Char) : Bool :=
  c.toNat == 0x20 || c.toNat == 0x09 || c.toNat == 0x0A || c.toNat == 0x0D ||
  c.toNat == 0x0B || c.toNat == 0x0C || c.toNat == 0xA0 || c.toNat == 0x1680 ||
  (0x2000 ≤ c.toNat && c.toNat ≤ 0x200A) || c.toNat == 0x2028 ||
  c.toNat == 0x2029 || c.toNat == 0x202F || c.toNat == 0x205F ||
  c.toNat == 0x3000 || c.toNat == 0xFEFF

/-- Embedding of `transactionId.trim()`: remove `jsWhitespace` characters
from both ends of the string. -/
def jsTrim (s : String) : String :=
  String.mk (((s.data.dropWhile jsWhitespace).reverse.dropWhile jsWhitespace).reverse)

/-- The character class of the validation regex `[a-zA-Z0-9_-]`
(code points: a-z 0x61-0x7A, A-Z 0x41-0x5A, 0-9 0x30-0x39,
underscore 0x5F, hyphen 0x2D). -/
def isAllowedChar (c : Char) : Bool :=
  (0x61 ≤ c.toNat && c.toNat ≤ 0x7A) || (0x41 ≤ c.toNat && c.toNat ≤ 0x5A) ||
  (0x30 ≤ c.toNat && c.toNat ≤ 0x39) || c.toNat == 0x5F || c.toNat == 0x2D

/-- Embedding of the regex test at server.js:271,
`/^[a-zA-Z0-9_-]+$/.test(cleanId)`: the string is nonempty and every
character lies in the allowed class. -/
def idPatternTest (s : String) : Bool :=
  !s.data.isEmpty && s.data.all isAllowedChar

/-- Error message returned by `validateTransactionId` when the input is
falsy or not a string (server.js:250). -/
def emptyMsg : String := "Transaction ID must be a non-empty string"

/-- Error message for a trimmed id shorter than 8 characters (server.js:257). -/
def tooShortMsg : String := "Transaction ID must be at least 8 characters long"

/-- Error message for a trimmed id longer than 100 characters (server.js:262). -/
def tooLongMsg : String := "Transaction ID must be less than 100 characters"

/-- Error message for a trimmed id containing a space (server.js:267). -/
def spacesMsg : String := "Transaction ID cannot contain spaces"

/-- Error message for a trimmed id failing the charset regex (server.js:272). -/
def charsetMsg : String := "Transaction ID can only contain letters, numbers, hyphens, and underscores"

/-- Error message for a trimmed id already present in the ledger (server.js:277). -/
def usedMsg : String := "Transaction ID has already been used"

/-- Result shape of `validateTransactionId`: either
`{valid: false, error}` or `{valid: true, cleanId}`. -/
inductive ValidationResult where
  | invalid (error : String)
  | valid (cleanId : String)
deriving DecidableEq, Repr

/-- Embedding of `validateTransactionId` (server.js:248-281).  The mutable
global `usedTransactionIds` set is passed explicitly.  The checks run in
source order: falsy-or-not-a-string, then on the trimmed id: minimum
length, maximum length, embedded space, charset regex, replay check. -/
def validateTransactionId (transactionId : JsInput) (usedTransactionIds : Finset String) :
    ValidationResult :=
  match transactionId with
  | .absent => .invalid emptyMsg
  | .nonStringTruthy => .invalid emptyMsg
  | .str s =>
    if s = "" then .invalid emptyMsg
    else
      let cleanId := jsTrim s
      if cleanId.length < 8 then .invalid tooShortMsg
      else if cleanId.length > 100 then .invalid tooLongMsg
      else if cleanId.data.contains ' ' then .invalid spacesMsg
      else if !idPatternTest cleanId then .invalid charsetMsg
      else if cleanId ∈ usedTransactionIds then .invalid usedMsg
      else .valid cleanId

/-- Outcome of one admission attempt at an admission entry point. -/
inductive AdmitResult where
  | Admitted (id : String)
  | Rejected (error : String)
deriving DecidableEq, Repr

/-- The validate-then-insert sequence performed by the checkout and payment
handlers (server.js:380-395): run `validateTransactionId` and, only on
success, add the cleaned id to `usedTransactionIds`.  Returns the outcome
together with the successor ledger. -/
def validate_and_insert (raw : JsInput) (used : Finset String) :
    AdmitResult × Finset String :=
  match validateTransactionId raw used with
  | .invalid e => (.Rejected e, used)
  | .valid cleanId => (.Admitted cleanId, insert cleanId used)

/-- State of the module-level `ipManager` object (server.js:14-68): the two
in-memory IP sets and the policy-mode flag (`false` = blacklist mode,
`true` = whitelist mode, as initialised at server.js:18). -/
structure IpManagerState where
  blockedIPs : Finset String
  allowedIPs : Finset String
  whitelistMode : Bool
deriving DecidableEq

/-- The state of `ipManager` at process start: both sets empty, blacklist
mode (server.js:16-18). -/
def initialIpState : IpManagerState :=
  { blockedIPs := ∅, allowedIPs := ∅, whitelistMode := false }

/-- Embedding of `ipManager.blockIP` (server.js:21-25): add to the
blocklist and remove from the allowlist if present. -/
def blockIP (st : IpManagerState) (ip : String) : IpManagerState :=
  { st with blockedIPs := insert ip st.blockedIPs, allowedIPs := st.allowedIPs.erase ip }

/-- Embedding of `ipManager.allowIP` (server.js:28-32): add to the
allowlist and remove from the blocklist if present. -/
def allowIP (st : IpManagerState) (ip : String) : IpManagerState :=
  { st with allowedIPs := insert ip st.allowedIPs, blockedIPs := st.blockedIPs.erase ip }

/-- Embedding of `ipManager.removeIP` (server.js:35-39): remove from both
lists. -/
def removeIP (st : IpManagerState) (ip : String) : IpManagerState :=
  { st with blockedIPs := st.blockedIPs.erase ip, allowedIPs := st.allowedIPs.erase ip }

/-- Embedding of `ipManager.isIPAllowed` (server.js:42-50).  Whitelist
mode: the address is in the allowlist or the allowlist is empty
(`size === 0`).  Blacklist mode: the address is not in the blocklist. -/
def isIPAllowed (st : IpManagerState) (clientIP : String) : Bool :=
  if st.whitelistMode then
    decide (clientIP ∈ st.allowedIPs) || decide (st.allowedIPs.card = 0)
  else
    !decide (clientIP ∈ st.blockedIPs)

/-- Embedding of `ipManager.setMode` (server.js:64-67): the flag becomes
true exactly when the argument is the literal string `whitelist`. -/
def setMode (st : IpManagerState) (mode : String) : IpManagerState :=
  { st with whitelistMode := mode == "whitelist" }

/-- Snapshot shape returned by `ipManager.getStatus` (server.js:53-61).
The JavaScript arrays `blockedIPs` and `allowedIPs` are modelled by the
underlying finite sets, since only their membership is observable through
the specified interface. -/
structure IpStatus where
  mode : String
  blockedCount : Nat
  allowedCount : Nat
  blockedIPs : Finset String
  allowedIPs : Finset String
deriving DecidableEq

/-- Embedding of `ipManager.getStatus` (server.js:53-61). -/
def getStatus (st : IpManagerState) : IpStatus :=
  { mode := if st.whitelistMode then "whitelist" else "blacklist"
    blockedCount := st.blockedIPs.card
    allowedCount := st.allowedIPs.card
    blockedIPs := st.blockedIPs
    allowedIPs := st.allowedIPs }

/-- One Gate-mutating admin operation, as dispatched by the admin
endpoints (server.js:176, 197, 218, 239). -/
inductive IpOp where
  | block (ip : String)
  | allow (ip : String)
  | remove (ip : String)
  | mode (m : String)
deriving DecidableEq, Repr

/-- Apply one admin operation to the Gate state. -/
def applyOp (st : IpManagerState) : IpOp → IpManagerState
  | .block ip => blockIP st ip
  | .allow ip => allowIP st ip
  | .remove ip => removeIP st ip
  | .mode m => setMode st m

/-- Apply a sequence of admin operations from left to right. -/
def applyOps (st : IpManagerState) (ops : List IpOp) : IpManagerState :=
  ops.foldl applyOp st

/-- Coalescing of JavaScript `a || b` where `a` is a possibly-missing
string: a present, nonempty string wins, otherwise the fallback is used
(the empty string is falsy in JavaScript). -/
def jsOr (a : Option String) (b : String) : String :=
  match a with
  | some s => if s = "" then b else s
  | none => b

/-- Embedding of the client-address resolution chain used by
`checkIPAccess` (server.js:123-128) and the checkout and payment handlers
(server.js:404-409, 505-510):
`req.headers[x-forwarded-for] || req.headers[x-real-ip] ||
req.connection?.remoteAddress || req.socket?.remoteAddress || req.ip ||
"Unknown"`.  Each source is a possibly-missing string. -/
def resolveClientIP (fwd realIp conn sock ip : Option String) : String :=
  jsOr fwd (jsOr realIp (jsOr conn (jsOr sock (jsOr ip "Unknown"))))

/-- First truthy value of a list of possibly-missing strings, mirroring a
JavaScript `||` chain over such values (the empty string is falsy). -/
def firstTruthy : List (Option String) → Option String
  | [] => none
  | a :: rest =>
    match a with
    | some s => if s = "" then firstTruthy rest else some s
    | none => firstTruthy rest

/-- Follows the words of the specification (section 4.2): prefer, in
order, a forwarded-for header value, then a real-IP header value, then
the transport-level peer address, then the literal `Unknown` sentinel.
Stated for comparison with `resolveClientIP`. -/
def resolve_client_address_spec (forwarded realIp peer : Option String) : String :=
  jsOr forwarded (jsOr realIp (jsOr peer "Unknown"))

/-- The transport-level peer address of the specification, collapsing the
three transport-level sources of the source chain
(`req.connection?.remoteAddress`, `req.socket?.remoteAddress`, `req.ip`)
in their source order. -/
def transportPeer (conn sock ip : Option String) : Option String :=
  firstTruthy [conn, sock, ip]

/-- Decision taken by the `checkIPAccess` middleware (server.js:122-146):
either reject with the fixed 403 body echoing the resolved address, or
fall through to the wrapped handler. -/
inductive GateDecision where
  | deny (ip : String)
  | proceed (ip : String)
deriving DecidableEq, Repr

/-- Embedding of the `checkIPAccess` middleware (server.js:122-146):
resolve the client address, then reject when `isIPAllowed` is false and
continue to the next handler otherwise. -/
def checkIPAccess (fwd realIp conn sock ip : Option String) (st : IpManagerState) :
    GateDecision :=
  let clientIP := resolveClientIP fwd realIp conn sock ip
  if !isIPAllowed st clientIP then .deny clientIP else .proceed clientIP

/-- Error message of the admin-key check (server.js:154 and the four
parallel occurrences). -/
def invalidAdminKeyMsg : String := "Invalid admin key"

/-- Error message when the `ip` body field is falsy (server.js:173 and the
parallel occurrences). -/
def ipRequiredMsg : String := "IP address required"

/-- Error message when the `mode` body field is not one of the two
accepted literals (server.js:236). -/
def invalidModeMsg : String := "Mode must be \"whitelist\" or \"blacklist\""

/-- Response of an admin endpoint: 401 on a bad admin key, 400 with a
message on a bad body field, 200 carrying a confirmation message and a
status snapshot for the four mutating endpoints, or 200 carrying only the
snapshot for the read-only `ip-status` endpoint. -/
inductive AdminResponse where
  | unauthorized
  | badRequest (error : String)
  | ok (message : String) (status : IpStatus)
  | okStatus (status : IpStatus)
deriving DecidableEq

/-- Embedding of `GET /api/admin/ip-status` (server.js:149-161).  The
presented `x-admin-key` header is a possibly-missing string compared by
strict equality against the configured secret. -/
def ipStatusEndpoint (adminKey : Option String) (expectedAdminKey : String)
    (st : IpManagerState) : AdminResponse × IpManagerState :=
  if adminKey ≠ some expectedAdminKey then (.unauthorized, st)
  else (.okStatus (getStatus st), st)

/-- Embedding of `POST /api/admin/block-ip` (server.js:163-182): admin-key
check, then falsy check on the `ip` body field, then delegate to
`blockIP` and answer with a confirmation message and the new snapshot. -/
def blockIpEndpoint (adminKey : Option String) (expectedAdminKey : String)
    (ip : Option String) (st : IpManagerState) : AdminResponse × IpManagerState :=
  if adminKey ≠ some expectedAdminKey then (.unauthorized, st)
  else
    match ip with
    | none => (.badRequest ipRequiredMsg, st)
    | some i =>
      if i = "" then (.badRequest ipRequiredMsg, st)
      else
        let st2 := blockIP st i
        (.ok ("IP " ++ i ++ " blocked successfully") (getStatus st2), st2)

/-- Embedding of `POST /api/admin/allow-ip` (server.js:184-203). -/
def allowIpEndpoint (adminKey : Option String) (expectedAdminKey : String)
    (ip : Option String) (st : IpManagerState) : AdminResponse × IpManagerState :=
  if adminKey ≠ some expectedAdminKey then (.unauthorized, st)
  else
    match ip with
    | none => (.badRequest ipRequiredMsg, st)
    | some i =>
      if i = "" then (.badRequest ipRequiredMsg, st)
      else
        let st2 := allowIP st i
        (.ok ("IP " ++ i ++ " allowed successfully") (getStatus st2), st2)

/-- Embedding of `POST /api/admin/remove-ip` (server.js:205-224). -/
def removeIpEndpoint (adminKey : Option String) (expectedAdminKey : String)
    (ip : Option String) (st : IpManagerState) : AdminResponse × IpManagerState :=
  if adminKey ≠ some expectedAdminKey then (.unauthorized, st)
  else
    match ip with
    | none => (.badRequest ipRequiredMsg, st)
    | some i =>
      if i = "" then (.badRequest ipRequiredMsg, st)
      else
        let st2 := removeIP st i
        (.ok ("IP " ++ i ++ " removed from all lists") (getStatus st2), st2)

/-- Embedding of `POST /api/admin/set-mode` (server.js:226-245): admin-key
check, then the body `mode` must be present and one of the two literals;
otherwise 400 with `invalidModeMsg` and no mutation. -/
def setModeEndpoint (adminKey : Option String) (expectedAdminKey : String)
    (mode : Option String) (st : IpManagerState) : AdminResponse × IpManagerState :=
  if adminKey ≠ some expectedAdminKey then (.unauthorized, st)
  else
    match mode with
    | none => (.badRequest invalidModeMsg, st)
    | some m =>
      if ¬ (m = "whitelist" ∨ m = "blacklist") then (.badRequest invalidModeMsg, st)
      else
        let st2 := setMode st m
        (.ok ("IP filtering mode set to " ++ m) (getStatus st2), st2)

/-- Request model for the gated checkout and payment endpoints: the five
client-address sources, the presented `x-api-key` header, and the body
fields the handlers inspect before validation. -/
structure GatedRequest where
  fwd : Option String
  realIp : Option String
  conn : Option String
  sock : Option String
  reqIp : Option String
  apiKey : Option String
  transactionId : JsInput
  customerName : JsInput
  customerEmail : JsInput
deriving DecidableEq

/-- Response of a gated checkout or payment request, abstracting the HTTP
codes of server.js: `ipDenied ip` is the 403 body
`Access denied from this IP address` echoing the resolved address,
`invalidApiKey` the 401, `missingFields` the 400 for absent body fields,
`validationError e` the 400 carrying the validation error message, and
`dispatched id` the success path on which the outbound notification is
sent. -/
inductive GatedResponse where
  | ipDenied (ip : String)
  | invalidApiKey
  | missingFields
  | validationError (error : String)
  | dispatched (transactionId : String)
deriving DecidableEq, Repr

/-- Embedding of `POST /api/webhook/checkout` (server.js:352-451)
including its `checkIPAccess` middleware: gate, API-key check, required
body fields (`transactionId`, `customerName`, `customerEmail`), the
validate-then-insert admission, and finally the notification dispatch.
Returns the response together with the successor ledger. -/
def checkoutHandler (req : GatedRequest) (expectedApiKey : String)
    (ipSt : IpManagerState) (used : Finset String) :
    GatedResponse × Finset String :=
  match checkIPAccess req.fwd req.realIp req.conn req.sock req.reqIp ipSt with
  | .deny ip => (.ipDenied ip, used)
  | .proceed _ =>
    if req.apiKey ≠ some expectedApiKey then (.invalidApiKey, used)
    else if req.transactionId.falsy || req.customerName.falsy || req.customerEmail.falsy then
      (.missingFields, used)
    else
      match validate_and_insert req.transactionId used with
      | (.Rejected e, u) => (.validationError e, u)
      | (.Admitted id, u) => (.dispatched id, u)

/-- Embedding of `POST /api/webhook/payment` (server.js:453-560) including
its `checkIPAccess` middleware; identical to the checkout pipeline except
that only `transactionId` is a required body field. -/
def paymentHandler (req : GatedRequest) (expectedApiKey : String)
    (ipSt : IpManagerState) (used : Finset String) :
    GatedResponse × Finset String :=
  match checkIPAccess req.fwd req.realIp req.conn req.sock req.reqIp ipSt with
  | .deny ip => (.ipDenied ip, used)
  | .proceed _ =>
    if req.apiKey ≠ some expectedApiKey then (.invalidApiKey, used)
    else if req.transactionId.falsy then (.missingFields, used)
    else
      match validate_and_insert req.transactionId used with
      | (.Rejected e, u) => (.validationError e, u)
      | (.Admitted id, u) => (.dispatched id, u)

/-- Run a list of further admission attempts against the ledger, keeping
only the resulting ledger (models intervening checkout or payment
requests). -/
def admitAll (rs : List JsInput) (L : Finset String) : Finset String :=
  rs.foldl (fun acc r => (validate_and_insert r acc).2) L

/-- Response of the generic `POST /api/webhook` endpoint. -/
inductive WebhookResponse where
  | missingBody
  | dispatched
  | dispatchFailed
deriving DecidableEq, Repr

/-- Embedding of `POST /api/webhook` (server.js:284-349).  The route is
registered without the `checkIPAccess` middleware and the handler body
consults neither `ipManager` nor `usedTransactionIds`: its only
request-dependent branch is whether the JSON body is empty (the
webhook-URL fallback at server.js:294 is a nonempty literal, so the
missing-configuration branch is unreachable).  `discordOk` stands for the
out-of-scope outcome of the outbound delivery. -/
def webhookHandler (bodyEmpty : Bool) (discordOk : Bool) : WebhookResponse :=
  if bodyEmpty then .missingBody
  else if discordOk then .dispatched
  else .dispatchFailed

/-- Characters of the allowed id class are not trim whitespace. -/
theorem isAllowedChar_not_ws (c : Char) (h : isAllowedChar c = true) :
    jsWhitespace c = false := by
  rw [← Bool.not_eq_true]
  simp only [isAllowedChar, jsWhitespace, Bool.or_eq_true, Bool.and_eq_true,
    decide_eq_true_eq, beq_iff_eq] at h ⊢
  omega

/-- Dropping whitespace from a list without whitespace is the identity. -/
theorem dropWhile_ws_eq_self {l : List Char} (h : ∀ c ∈ l, jsWhitespace c = false) :
    l.dropWhile jsWhitespace = l := by
  cases l with
  | nil => rfl
  | cons a as => simp [List.dropWhile_cons, h a (by simp)]

/-- Trimming a string consisting only of allowed id characters is the
identity. -/
theorem jsTrim_eq_self {s : String} (h : ∀ c ∈ s.data, isAllowedChar c = true) :
    jsTrim s = s := by
  have h1 : ∀ c ∈ s.data, jsWhitespace c = false := fun c hc => isAllowedChar_not_ws c (h c hc)
  unfold jsTrim
  rw [dropWhile_ws_eq_self h1, dropWhile_ws_eq_self (by simpa using h1), List.reverse_reverse]

/-- Unfolding of `validateTransactionId` on a string input: the six checks
in source order. -/
theorem validate_str_eq (s : String) (L : Finset String) :
    validateTransactionId (.str s) L =
      if s = "" then .invalid emptyMsg
      else if (jsTrim s).length < 8 then .invalid tooShortMsg
      else if (jsTrim s).length > 100 then .invalid tooLongMsg
      else if (jsTrim s).data.contains ' ' then .invalid spacesMsg
      else if !idPatternTest (jsTrim s) then .invalid charsetMsg
      else if jsTrim s ∈ L then .invalid usedMsg
      else .valid (jsTrim s) := rfl

/-- An input that validated successfully against some ledger is reported
as already used against any ledger containing its normalized form. -/
theorem validate_replay {x : JsInput} {L : Finset String} {n : String}
    (h : validateTransactionId x L = .valid n) (L2 : Finset String) (hm : n ∈ L2) :
    validateTransactionId x L2 = .invalid usedMsg := by
  cases x with
  | absent => simp [validateTransactionId] at h
  | nonStringTruthy => simp [validateTransactionId] at h
  | str s =>
    rw [validate_str_eq] at h ⊢
    split at h
    · exact absurd h (by simp)
    next h0 =>
    rw [if_neg h0]
    split at h
    · exact absurd h (by simp)
    next h1 =>
    rw [if_neg h1]
    split at h
    · exact absurd h (by simp)
    next h2 =>
    rw [if_neg h2]
    split at h
    · exact absurd h (by simp)
    next h3 =>
    rw [if_neg h3]
    split at h
    · exact absurd h (by simp)
    next h4 =>
    rw [if_neg h4]
    split at h
    · exact absurd h (by simp)
    next h5 =>
    cases h
    rw [if_pos hm]

/-- One admission attempt never shrinks the ledger. -/
theorem subset_validate_and_insert (r : JsInput) (L : Finset String) :
    L ⊆ (validate_and_insert r L).2 := by
  unfold validate_and_insert
  split
  · exact subset_rfl
  · exact Finset.subset_insert _ _

/-- A sequence of admission attempts never shrinks the ledger. -/
theorem subset_admitAll (rs : List JsInput) (L : Finset String) : L ⊆ admitAll rs L := by
  induction rs generalizing L with
  | nil => exact subset_rfl
  | cons r rs ih => exact (subset_validate_and_insert r L).trans (ih _)

/-- C1: if an admission call returns `Admitted n`, then after any list of
intervening admissions of other inputs, the normalized id `n` is still in
the ledger and a second admission call with the same input is rejected
with the already-used error: once accepted, an id can never be accepted
again for the lifetime of the process. -/
theorem admission_at_most_once (x : JsInput) (L : Finset String) (n : String)
    (others : List JsInput) (h : (validate_and_insert x L).1 = .Admitted n) :
    n ∈ admitAll others (validate_and_insert x L).2 ∧
    (validate_and_insert x (admitAll others (validate_and_insert x L).2)).1
      = .Rejected usedMsg := by
  have hv : validateTransactionId x L = .valid n := by
    unfold validate_and_insert at h
    cases hv : validateTransactionId x L with
    | invalid e => rw [hv] at h; simp at h
    | valid c => rw [hv] at h; simp at h; rw [h]
  have h2 : (validate_and_insert x L).2 = insert n L := by
    simp [validate_and_insert, hv]
  have hmem : n ∈ admitAll others (validate_and_insert x L).2 :=
    subset_admitAll others _ (h2 ▸ Finset.mem_insert_self n L)
  refine ⟨hmem, ?_⟩
  have hrep := validate_replay hv (admitAll others (validate_and_insert x L).2) hmem
  generalize hM : admitAll others (validate_and_insert x L).2 = M at hrep ⊢
  simp [validate_and_insert, hrep]

/-- Witness for C1: `TXN-12345678` is admitted into the empty ledger and,
after an intervening admission of another id, is rejected as already
used. -/
theorem admission_at_most_once_witness :
    (validate_and_insert (JsInput.str "TXN-12345678") (∅ : Finset String)).1
      = AdmitResult.Admitted "TXN-12345678" ∧
    (validate_and_insert (JsInput.str "TXN-12345678")
        (admitAll [JsInput.str "ANOTHER-ID-99", JsInput.absent]
          (validate_and_insert (JsInput.str "TXN-12345678") (∅ : Finset String)).2)).1
      = AdmitResult.Rejected usedMsg := by
  have h1 : (validate_and_insert (JsInput.str "TXN-12345678") (∅ : Finset String)).1
      = AdmitResult.Admitted "TXN-12345678" := by decide
  exact ⟨h1, (admission_at_most_once _ _ _ _ h1).2⟩

/-- A string of nonzero length is not the empty string. -/
theorem ne_empty_of_length {s : String} (h : s.length ≠ 0) : s ≠ "" :=
  fun he => h (by rw [he]; rfl)

/-- The length of a string is the length of its character list. -/
theorem data_length_eq {s : String} : s.length = s.data.length := rfl

/-- C2: `validateTransactionId` trims its input and returns the first
applicable error in the fixed source order: empty-or-not-a-string,
too short (trimmed length below 8), too long (trimmed length above
100), embedded space, charset violation, already used; on success it
returns the trimmed id.  Every rejection leaves the ledger unchanged.
A string of 8 or of 100 allowed characters not yet in the ledger is
accepted; one of 7 is rejected as too short; one of 101 as too long. -/
theorem validation_order_and_boundaries (x : JsInput) (raw : String) (L : Finset String)
    (e : String) :
    (validateTransactionId .absent L = .invalid emptyMsg) ∧
    (validateTransactionId .nonStringTruthy L = .invalid emptyMsg) ∧
    (raw = "" → validateTransactionId (.str raw) L = .invalid emptyMsg) ∧
    (raw ≠ "" → (jsTrim raw).length < 8 →
      validateTransactionId (.str raw) L = .invalid tooShortMsg) ∧
    (raw ≠ "" → ¬ (jsTrim raw).length < 8 → (jsTrim raw).length > 100 →
      validateTransactionId (.str raw) L = .invalid tooLongMsg) ∧
    (raw ≠ "" → ¬ (jsTrim raw).length < 8 → ¬ (jsTrim raw).length > 100 →
      (jsTrim raw).data.contains ' ' = true →
      validateTransactionId (.str raw) L = .invalid spacesMsg) ∧
    (raw ≠ "" → ¬ (jsTrim raw).length < 8 → ¬ (jsTrim raw).length > 100 →
      (jsTrim raw).data.contains ' ' = false → idPatternTest (jsTrim raw) = false →
      validateTransactionId (.str raw) L = .invalid charsetMsg) ∧
    (raw ≠ "" → ¬ (jsTrim raw).length < 8 → ¬ (jsTrim raw).length > 100 →
      (jsTrim raw).data.contains ' ' = false → idPatternTest (jsTrim raw) = true →
      jsTrim raw ∈ L →
      validateTransactionId (.str raw) L = .invalid usedMsg) ∧
    (raw ≠ "" → ¬ (jsTrim raw).length < 8 → ¬ (jsTrim raw).length > 100 →
      (jsTrim raw).data.contains ' ' = false → idPatternTest (jsTrim raw) = true →
      jsTrim raw ∉ L →
      validateTransactionId (.str raw) L = .valid (jsTrim raw)) ∧
    ((validate_and_insert x L).1 = .Rejected e → (validate_and_insert x L).2 = L) ∧
    ((∀ c ∈ raw.data, isAllowedChar c = true) →
      ((raw.length = 8 ∨ raw.length = 100) → raw ∉ L →
        validateTransactionId (.str raw) L = .valid raw) ∧
      (raw.length = 7 → validateTransactionId (.str raw) L = .invalid tooShortMsg) ∧
      (raw.length = 101 → validateTransactionId (.str raw) L = .invalid tooLongMsg)) := by
  refine ⟨rfl, rfl, ?_, ?_, ?_, ?_, ?_, ?_, ?_, ?_, ?_⟩
  · intro h0
    rw [validate_str_eq, if_pos h0]
  · intro h0 h1
    rw [validate_str_eq, if_neg h0, if_pos h1]
  · intro h0 h1 h2
    rw [validate_str_eq, if_neg h0, if_neg h1, if_pos h2]
  · intro h0 h1 h2 h3
    rw [validate_str_eq, if_neg h0, if_neg h1, if_neg h2, if_pos h3]
  · intro h0 h1 h2 h3 h4
    rw [validate_str_eq, if_neg h0, if_neg h1, if_neg h2, if_neg (by simpa using h3),
      if_pos (by simp [h4])]
  · intro h0 h1 h2 h3 h4 h5
    rw [validate_str_eq, if_neg h0, if_neg h1, if_neg h2, if_neg (by simpa using h3),
      if_neg (by simp [h4]), if_pos h5]
  · intro h0 h1 h2 h3 h4 h5
    rw [validate_str_eq, if_neg h0, if_neg h1, if_neg h2, if_neg (by simpa using h3),
      if_neg (by simp [h4]), if_neg h5]
  · intro h
    unfold validate_and_insert at h ⊢
    cases hv : validateTransactionId x L with
    | invalid e2 => rfl
    | valid c => rw [hv] at h; simp at h
  · intro hall
    have htrim : jsTrim raw = raw := jsTrim_eq_self hall
    have hsp : raw.data.contains ' ' = false := by
      simp only [List.contains_eq_any_beq, List.any_eq_false, beq_iff_eq]
      intro c hc he
      exact absurd (hall c hc) (by rw [← he]; decide)
    have hpat : raw.data ≠ [] → idPatternTest raw = true := by
      intro hd
      simp only [idPatternTest, Bool.and_eq_true, List.all_eq_true]
      exact ⟨by simp [List.isEmpty_eq_false.mpr hd], hall⟩
    refine ⟨?_, ?_, ?_⟩
    · intro hlen hnot
      have hd : raw.data ≠ [] := by
        intro hd
        rw [data_length_eq, hd] at hlen
        simp at hlen
      rw [validate_str_eq, if_neg (ne_empty_of_length (by omega)),
        if_neg (by rw [htrim]; omega), if_neg (by rw [htrim]; omega),
        if_neg (by rw [htrim]; simpa using hsp), if_neg (by rw [htrim]; simp [hpat hd]),
        if_neg (by rw [htrim]; exact hnot), htrim]
    · intro hlen
      rw [validate_str_eq, if_neg (ne_empty_of_length (by omega)),
        if_pos (by rw [htrim]; omega)]
    · intro hlen
      rw [validate_str_eq, if_neg (ne_empty_of_length (by omega)),
        if_neg (by rw [htrim]; omega), if_pos (by rw [htrim]; omega)]

/-- Witness for C2: an 8-character allowed id is accepted against the
empty ledger, a 7-character one is too short, and an id with an embedded
space draws the space error. -/
theorem validation_order_witness :
    validateTransactionId (JsInput.str "ABCD1234") (∅ : Finset String)
      = ValidationResult.valid "ABCD1234" ∧
    validateTransactionId (JsInput.str "ABC1234") (∅ : Finset String)
      = ValidationResult.invalid tooShortMsg ∧
    validateTransactionId (JsInput.str "bad id123") (∅ : Finset String)
      = ValidationResult.invalid spacesMsg := by
  have h1 := validation_order_and_boundaries JsInput.absent "ABCD1234" (∅ : Finset String) ""
  have h2 := validation_order_and_boundaries JsInput.absent "ABC1234" (∅ : Finset String) ""
  have h3 := validation_order_and_boundaries JsInput.absent "bad id123" (∅ : Finset String) ""
  refine ⟨?_, ?_, ?_⟩
  · exact (h1.2.2.2.2.2.2.2.2.2.2 (by decide)).1 (Or.inl (by decide)) (by decide)
  · exact (h2.2.2.2.2.2.2.2.2.2.2 (by decide)).2.1 (by decide)
  · exact h3.2.2.2.2.2.1 (by decide) (by decide) (by decide) (by decide)

/-- C3: in whitelist mode `isIPAllowed` is true exactly when the address
is in the allowlist or the allowlist is empty (fail-open); in blacklist
mode it is true exactly when the address is not in the blocklist.  In
whitelist mode an empty allowlist admits every address, and a singleton
allowlist denies every other address. -/
theorem isIPAllowed_characterization (st : IpManagerState) (addr B : String) :
    (st.whitelistMode = true →
      (isIPAllowed st addr = true ↔ addr ∈ st.allowedIPs ∨ st.allowedIPs = ∅)) ∧
    (st.whitelistMode = false →
      (isIPAllowed st addr = true ↔ addr ∉ st.blockedIPs)) ∧
    (st.whitelistMode = true → st.allowedIPs = ∅ → isIPAllowed st addr = true) ∧
    (st.whitelistMode = true → st.allowedIPs = {B} → addr ≠ B →
      isIPAllowed st addr = false) := by
  refine ⟨?_, ?_, ?_, ?_⟩
  · intro hm
    simp [isIPAllowed, hm, Finset.card_eq_zero]
  · intro hm
    simp [isIPAllowed, hm]
  · intro hm he
    simp [isIPAllowed, hm, he]
  · intro hm he hne
    simp [isIPAllowed, hm, he, hne]

/-- Witness for C3: with an empty allowlist in whitelist mode any address
is admitted; once `5.6.7.8` is the only allowed address, `1.2.3.4` is
denied. -/
theorem isIPAllowed_characterization_witness :
    isIPAllowed { blockedIPs := ∅, allowedIPs := ∅, whitelistMode := true } "1.2.3.4" = true ∧
    isIPAllowed { blockedIPs := ∅, allowedIPs := {"5.6.7.8"}, whitelistMode := true } "1.2.3.4"
      = false := by
  constructor
  · exact (isIPAllowed_characterization _ "1.2.3.4" "5.6.7.8").2.2.1 rfl rfl
  · exact (isIPAllowed_characterization _ "1.2.3.4" "5.6.7.8").2.2.2 rfl rfl (by decide)

/-- One admin operation preserves disjointness of the two IP sets. -/
theorem disjoint_applyOp {st : IpManagerState}
    (h : Disjoint st.blockedIPs st.allowedIPs) (op : IpOp) :
    Disjoint (applyOp st op).blockedIPs (applyOp st op).allowedIPs := by
  rw [Finset.disjoint_left] at h ⊢
  cases op with
  | block ip =>
    intro a ha
    simp [applyOp, blockIP] at ha ⊢
    rcases ha with rfl | ha
    · intro hne
      exact absurd rfl hne
    · intro _
      exact h ha
  | allow ip =>
    intro a ha
    simp [applyOp, allowIP] at ha ⊢
    obtain ⟨hne, ha⟩ := ha
    exact ⟨hne, h ha⟩
  | remove ip =>
    intro a ha
    simp [applyOp, removeIP] at ha ⊢
    intro _
    exact h ha.2
  | mode m =>
    intro a ha
    simp [applyOp, setMode] at ha ⊢
    exact h ha

/-- Any sequence of admin operations preserves disjointness of the two
IP sets. -/
theorem disjoint_applyOps {st : IpManagerState}
    (h : Disjoint st.blockedIPs st.allowedIPs) (ops : List IpOp) :
    Disjoint (applyOps st ops).blockedIPs (applyOps st ops).allowedIPs := by
  induction ops generalizing st with
  | nil => exact h
  | cons op rest ih => exact ih (disjoint_applyOp h op)

/-- C4: from the initial empty state, every sequence of block, allow,
remove and set-mode operations keeps the blocklist and the allowlist
disjoint; and after `allowIP A` followed by `blockIP A`, the address `A`
is in the blocklist only, and in blacklist mode `isIPAllowed A` is
false. -/
theorem gate_sets_mutually_exclusive (ops : List IpOp) (A : String)
    (st : IpManagerState) :
    Disjoint (applyOps initialIpState ops).blockedIPs
      (applyOps initialIpState ops).allowedIPs ∧
    (A ∈ (blockIP (allowIP st A) A).blockedIPs ∧
     A ∉ (blockIP (allowIP st A) A).allowedIPs ∧
     ((blockIP (allowIP st A) A).whitelistMode = false →
       isIPAllowed (blockIP (allowIP st A) A) A = false)) := by
  refine ⟨disjoint_applyOps (by simp [initialIpState]) ops, ?_, ?_, ?_⟩
  · simp [blockIP, allowIP]
  · simp [blockIP, allowIP]
  · intro hm
    simp [blockIP, allowIP] at hm
    simp [isIPAllowed, hm, blockIP, allowIP]

/-- Witness for C4: allow-then-block of `7.7.7.7` from the initial state
leaves it in the blocklist only and denied in blacklist mode. -/
theorem gate_sets_mutually_exclusive_witness :
    "7.7.7.7" ∈ (blockIP (allowIP initialIpState "7.7.7.7") "7.7.7.7").blockedIPs ∧
    "7.7.7.7" ∉ (blockIP (allowIP initialIpState "7.7.7.7") "7.7.7.7").allowedIPs ∧
    isIPAllowed (blockIP (allowIP initialIpState "7.7.7.7") "7.7.7.7") "7.7.7.7" = false := by
  have h := gate_sets_mutually_exclusive [] "7.7.7.7" initialIpState
  exact ⟨h.2.1, h.2.2.1, h.2.2.2 rfl⟩

/-- C5 counterexample: with `9.9.9.9` blocked in blacklist mode the Gate
denies it, yet the generic `POST /api/webhook` endpoint processes a
request with a nonempty body all the way to notification dispatch: that
route is registered without the `checkIPAccess` middleware
(server.js:284) and its handler never consults the Gate, so not every
inbound request first passes the IP Access Gate. -/
theorem webhook_bypasses_gate :
    isIPAllowed (blockIP initialIpState "9.9.9.9") "9.9.9.9" = false ∧
    webhookHandler false true = WebhookResponse.dispatched := by
  constructor
  · decide
  · rfl

/-- C5 amended: the gated checkout and payment endpoints pass the IP
Access Gate first: when `isIPAllowed` is false on the resolved client
address the request is answered with the fixed access-denied body
echoing the address, the ledger is untouched and neither the API-key
check nor validation nor dispatch runs; when it is true the request
proceeds past the gate. -/
theorem gated_endpoints_gate_first (req : GatedRequest) (key : String)
    (ipSt : IpManagerState) (used : Finset String) :
    (isIPAllowed ipSt (resolveClientIP req.fwd req.realIp req.conn req.sock req.reqIp) = false →
      checkoutHandler req key ipSt used
        = (.ipDenied (resolveClientIP req.fwd req.realIp req.conn req.sock req.reqIp), used) ∧
      paymentHandler req key ipSt used
        = (.ipDenied (resolveClientIP req.fwd req.realIp req.conn req.sock req.reqIp), used)) ∧
    (isIPAllowed ipSt (resolveClientIP req.fwd req.realIp req.conn req.sock req.reqIp) = true →
      (∀ a, (checkoutHandler req key ipSt used).1 ≠ GatedResponse.ipDenied a) ∧
      (∀ a, (paymentHandler req key ipSt used).1 ≠ GatedResponse.ipDenied a)) := by
  constructor
  · intro h
    constructor
    · simp [checkoutHandler, checkIPAccess, h]
    · simp [paymentHandler, checkIPAccess, h]
  · intro h
    constructor
    · intro a
      simp only [checkoutHandler, checkIPAccess, h]
      split
      · simp_all
      split
      · simp
      split
      · simp
      split
      · simp_all
      · simp_all
    · intro a
      simp only [paymentHandler, checkIPAccess, h]
      split
      · simp_all
      split
      · simp
      split
      · simp
      split
      · simp_all
      · simp_all

/-- Witness for C5 amended: a checkout request forwarded for `9.9.9.9`
while that address is blocked is answered with the access-denied body and
leaves the ledger empty. -/
theorem gated_endpoints_gate_first_witness :
    checkoutHandler
      { fwd := some "9.9.9.9", realIp := none, conn := none, sock := none,
        reqIp := none, apiKey := some "k", transactionId := JsInput.str "TXN-12345678",
        customerName := JsInput.str "Jo", customerEmail := JsInput.str "jo" }
      "k" (blockIP initialIpState "9.9.9.9") (∅ : Finset String)
      = (GatedResponse.ipDenied "9.9.9.9", (∅ : Finset String)) := by
  have h := gated_endpoints_gate_first
    { fwd := some "9.9.9.9", realIp := none, conn := none, sock := none,
      reqIp := none, apiKey := some "k", transactionId := JsInput.str "TXN-12345678",
      customerName := JsInput.str "Jo", customerEmail := JsInput.str "jo" }
    "k" (blockIP initialIpState "9.9.9.9") (∅ : Finset String)
  exact (h.1 (by decide)).1

/-- C6 counterexample: with the correct admin key but a missing `ip` body
field, the block-ip endpoint answers with the 400 missing-address error
and performs no Gate mutation, instead of delegating to the Gate and
returning a confirmation with a status snapshot. -/
theorem admin_missing_ip_no_delegation :
    blockIpEndpoint (some "k") "k" none initialIpState
      = (AdminResponse.badRequest ipRequiredMsg, initialIpState) := rfl

/-- C6 amended: every admin endpoint first compares the presented key by
exact string equality with the configured secret; on mismatch it returns
the authorization error and mutates nothing; with the correct key and a
well-formed body it delegates to the Gate operation and returns the
mutated status snapshot alongside the confirmation message (the
read-only status endpoint returns the current snapshot). -/
theorem admin_endpoints_authorize_first (presented : Option String) (expected : String)
    (body : Option String) (st : IpManagerState) :
    (presented ≠ some expected →
      ipStatusEndpoint presented expected st = (.unauthorized, st) ∧
      blockIpEndpoint presented expected body st = (.unauthorized, st) ∧
      allowIpEndpoint presented expected body st = (.unauthorized, st) ∧
      removeIpEndpoint presented expected body st = (.unauthorized, st) ∧
      setModeEndpoint presented expected body st = (.unauthorized, st)) ∧
    (presented = some expected →
      ipStatusEndpoint presented expected st = (.okStatus (getStatus st), st) ∧
      (∀ ip2, ip2 ≠ "" →
        blockIpEndpoint presented expected (some ip2) st
          = (.ok ("IP " ++ ip2 ++ " blocked successfully") (getStatus (blockIP st ip2)),
             blockIP st ip2) ∧
        allowIpEndpoint presented expected (some ip2) st
          = (.ok ("IP " ++ ip2 ++ " allowed successfully") (getStatus (allowIP st ip2)),
             allowIP st ip2) ∧
        removeIpEndpoint presented expected (some ip2) st
          = (.ok ("IP " ++ ip2 ++ " removed from all lists") (getStatus (removeIP st ip2)),
             removeIP st ip2)) ∧
      (∀ m, (m = "whitelist" ∨ m = "blacklist") →
        setModeEndpoint presented expected (some m) st
          = (.ok ("IP filtering mode set to " ++ m) (getStatus (setMode st m)),
             setMode st m))) := by
  constructor
  · intro h
    exact ⟨by simp [ipStatusEndpoint, h], by simp [blockIpEndpoint, h],
      by simp [allowIpEndpoint, h], by simp [removeIpEndpoint, h],
      by simp [setModeEndpoint, h]⟩
  · intro h
    refine ⟨by simp [ipStatusEndpoint, h], ?_, ?_⟩
    · intro ip2 hne
      exact ⟨by simp [blockIpEndpoint, h, hne], by simp [allowIpEndpoint, h, hne],
        by simp [removeIpEndpoint, h, hne]⟩
    · intro m hm
      simp [setModeEndpoint, h, hm]

/-- Witness for C6 amended: a wrong key on block-ip leaves the state
untouched with the authorization error; the correct key blocks the
address and returns the confirmation with the snapshot. -/
theorem admin_endpoints_authorize_first_witness :
    blockIpEndpoint (some "wrong") "k" (some "1.2.3.4") initialIpState
      = (AdminResponse.unauthorized, initialIpState) ∧
    blockIpEndpoint (some "k") "k" (some "1.2.3.4") initialIpState
      = (AdminResponse.ok "IP 1.2.3.4 blocked successfully"
           (getStatus (blockIP initialIpState "1.2.3.4")),
         blockIP initialIpState "1.2.3.4") := by
  have h1 := admin_endpoints_authorize_first (some "wrong") "k" (some "1.2.3.4") initialIpState
  have h2 := admin_endpoints_authorize_first (some "k") "k" (some "1.2.3.4") initialIpState
  exact ⟨(h1.1 (by decide)).2.1, ((h2.2 rfl).2.1 "1.2.3.4" (by decide)).1⟩

/-- C7: the set-mode endpoint, authorized and given one of the two
accepted literals, replaces the mode with that value; any other input is
answered with the invalid-mode error and the state, mode included, is
unchanged. -/
theorem setMode_endpoint_behavior (k m : String) (st : IpManagerState) :
    (setModeEndpoint (some k) k (some "whitelist") st
      = (.ok ("IP filtering mode set to whitelist") (getStatus (setMode st "whitelist")),
         setMode st "whitelist") ∧
     (setMode st "whitelist").whitelistMode = true) ∧
    (setModeEndpoint (some k) k (some "blacklist") st
      = (.ok ("IP filtering mode set to blacklist") (getStatus (setMode st "blacklist")),
         setMode st "blacklist") ∧
     (setMode st "blacklist").whitelistMode = false) ∧
    (m ≠ "whitelist" → m ≠ "blacklist" →
      setModeEndpoint (some k) k (some m) st = (.badRequest invalidModeMsg, st)) ∧
    (setModeEndpoint (some k) k none st = (.badRequest invalidModeMsg, st)) := by
  refine ⟨⟨?_, ?_⟩, ⟨?_, ?_⟩, ?_, ?_⟩
  · simp [setModeEndpoint]
  · simp [setMode]
  · simp [setModeEndpoint]
  · simp [setMode]
  · intro h1 h2
    simp [setModeEndpoint, h1, h2]
  · simp [setModeEndpoint]

/-- Witness for C7: the literal `purple` is rejected with the
invalid-mode error leaving the initial state unchanged, while
`whitelist` switches the mode flag on. -/
theorem setMode_endpoint_behavior_witness :
    setModeEndpoint (some "k") "k" (some "purple") initialIpState
      = (.badRequest invalidModeMsg, initialIpState) ∧
    (setModeEndpoint (some "k") "k" (some "whitelist") initialIpState).2.whitelistMode
      = true := by
  have h := setMode_endpoint_behavior "k" "purple" initialIpState
  refine ⟨h.2.2.1 (by decide) (by decide), ?_⟩
  rw [(setMode_endpoint_behavior "k" "purple" initialIpState).1.1]
  exact h.1.2

/-- C8: the client-address resolution chain equals the four-step
preference order of the specification once the three transport-level
sources are collapsed in source order into the single transport-level
peer address; equivalently, it is the first truthy value among
forwarded-for, real-IP, connection address, socket address and request
ip, with the `Unknown` sentinel as final fallback. -/
theorem resolveClientIP_order (fwd realIp conn sock ip : Option String) :
    resolveClientIP fwd realIp conn sock ip
      = resolve_client_address_spec fwd realIp (transportPeer conn sock ip) ∧
    resolveClientIP fwd realIp conn sock ip
      = (firstTruthy [fwd, realIp, conn, sock, ip]).getD "Unknown" := by
  constructor <;>
  · rcases fwd with _ | f <;> rcases realIp with _ | r <;> rcases conn with _ | c <;>
      rcases sock with _ | s <;> rcases ip with _ | i <;>
      simp only [resolveClientIP, resolve_client_address_spec, transportPeer,
        firstTruthy, jsOr, Option.getD] <;>
      (repeat' split) <;>
      (try rfl) <;>
      simp_all

/-- C10: in whitelist mode `isIPAllowed` depends only on the allowlist,
never on the blocklist: two whitelist-mode states with the same allowlist
decide every address identically; in particular, blocking an address and
then switching to whitelist mode with an empty allowlist admits that
address even though it stays in the blocklist. -/
theorem whitelist_ignores_blocklist (st st2 : IpManagerState) (addr A : String)
    (hm : st.whitelistMode = true) (hm2 : st2.whitelistMode = true)
    (ha : st.allowedIPs = st2.allowedIPs) :
    isIPAllowed st addr = isIPAllowed st2 addr ∧
    (isIPAllowed (setMode (blockIP initialIpState A) "whitelist") A = true ∧
     A ∈ (setMode (blockIP initialIpState A) "whitelist").blockedIPs) := by
  refine ⟨?_, ?_, ?_⟩
  · simp [isIPAllowed, hm, hm2, ha]
  · simp [isIPAllowed, setMode, blockIP, initialIpState]
  · simp [setMode, blockIP, initialIpState]

/-- Witness for C10: whether `9.9.9.9` is in the blocklist makes no
difference to a whitelist-mode decision. -/
theorem whitelist_ignores_blocklist_witness :
    isIPAllowed { blockedIPs := {"9.9.9.9"}, allowedIPs := ∅, whitelistMode := true } "9.9.9.9"
      = isIPAllowed { blockedIPs := ∅, allowedIPs := ∅, whitelistMode := true } "9.9.9.9" :=
  (whitelist_ignores_blocklist
    { blockedIPs := {"9.9.9.9"}, allowedIPs := ∅, whitelistMode := true }
    { blockedIPs := ∅, allowedIPs := ∅, whitelistMode := true }
    "9.9.9.9" "9.9.9.9" rfl rfl rfl).1

end GithubStore
